import Mathlib

/-!
Shallow embedding of the Yew component in `src/app.rs` of monkey-go-web:
the client-side state machine for code input capture, submission to the
execution endpoint, asynchronous response handling and timed notification
dismissal.  Pure state transitions are embedded directly; the side effects
performed through `ctx.link()` (spawning timer/network futures, sending a
message back into the update loop) are reified as a list of emitted
commands, and asynchronous completions are delivered back into `update`
as ordinary messages.
-/

/-- Escaping of one character as Rust's `Debug` formatting of a `str` does
it, for the escape classes that occur in this development (double quote,
backslash, newline, carriage return, tab); other printable characters are
rendered unchanged. -/
def escapeDebugChar (c : Char) : String :=
  if c = '"' then "\\\""
  else if c = '\\' then "\\\\"
  else if c = '\n' then "\\n"
  else if c = '\r' then "\\r"
  else if c = '\t' then "\\t"
  else String.singleton c

/-- Rust's `Debug` rendering of a `str` value (what `format!` with the `:?`
specifier produces): the escaped contents wrapped in double-quote
characters. -/
def rustDebugStr (s : String) : String :=
  "\"" ++ String.join (s.data.map escapeDebugChar) ++ "\""

/-- The `SendError` struct of `src/app.rs`: it stores in `err` the `Debug`
rendering of whatever value it was constructed from. -/
structure SendError where
  err : String
  deriving DecidableEq, Repr

/-- Models `SendError::new` at the instantiation `T = &str` used for the
`"Status error"` sentinel in `src/app.rs`: `format!` with the `:?`
specifier applied to a `str` wraps it in double quotes. -/
def SendError.new (s : String) : SendError :=
  ⟨rustDebugStr s⟩

/-- The `PLACEHOLDER` raw-string constant of `src/app.rs` (initial editor
contents and textarea placeholder). -/
def PLACEHOLDER : String :=
  "  \n\tlet identity = fn(x) \x7b x; \x7d; identity(5);\n    "

/-- The `App` component state of `src/app.rs`: the editable code text, the
two stored notification texts, and the two visibility flags.  These five
fields are the whole state — in particular there is no in-flight or busy
flag. -/
structure App where
  code : String
  message : Option String
  error : Option String
  show_message : Bool
  show_error : Bool
  deriving DecidableEq, Repr

/-- The `AppMsg` message enum of `src/app.rs`. -/
inductive AppMsg where
  | Response (ret : String)
  | ResponseError (e : SendError)
  | RunCode
  | Fetching
  | CodeChanged (code : String)
  | TurnOffShow
  deriving DecidableEq, Repr

/-- The side effects `update` performs through `ctx.link()`, reified:
`sleepThenSend secs m` is a `send_future` that sleeps `secs` seconds and
then delivers `m`; `request code` is the `send_future` that runs
`send_code URL code` and delivers the classified completion message;
`send m` is an immediate `send_message`. -/
inductive Cmd where
  | sleepThenSend (secs : Nat) (msg : AppMsg)
  | request (code : String)
  | send (msg : AppMsg)
  deriving DecidableEq, Repr

/-- The result of one call to `Component::update`: the mutated state, the
`bool` return value (whether a re-render is requested), and the commands
issued through `ctx.link()` in source order. -/
structure UpdateResult where
  state : App
  render : Bool
  cmds : List Cmd
  deriving DecidableEq, Repr

/-- `App::create` from `src/app.rs`: placeholder code, both texts
pre-filled (`"Info"` / `"Error"`), both banners hidden. -/
def App.create : App :=
  { code := PLACEHOLDER
    message := some "Info"
    error := some "Error"
    show_message := false
    show_error := false }

/-- `App::update` from `src/app.rs`, branch by branch.  `Response` and
`ResponseError` each arm the 3-second dismiss timer; `RunCode` spawns the
network future for the current code and then sends `Fetching`;
`CodeChanged` stores the new text and returns `false`. -/
def App.update (s : App) (msg : AppMsg) : UpdateResult :=
  match msg with
  | .Response ret =>
      { state := { s with message := some ret, show_message := true }
        render := true
        cmds := [.sleepThenSend 3 .TurnOffShow] }
  | .Fetching =>
      { state := s, render := false, cmds := [] }
  | .TurnOffShow =>
      { state := { s with message := none, error := none,
                          show_error := false, show_message := false }
        render := true
        cmds := [] }
  | .RunCode =>
      { state := s
        render := false
        cmds := [.request s.code, .send .Fetching] }
  | .CodeChanged code =>
      { state := { s with code := code }, render := false, cmds := [] }
  | .ResponseError e =>
      { state := { s with error := some e.err, show_error := true }
        render := true
        cmds := [.sleepThenSend 3 .TurnOffShow] }

/-- The possible resolutions of the transport layer underneath
`send_code`: the POST itself fails, reading the body fails, or a body is
obtained.  A failing outcome is represented by the `Debug` rendering of
the underlying `gloo_net::Error`, which is what `SendError::new` stores
verbatim. -/
inductive TransportOutcome where
  | sendErr (debugRepr : String)
  | textErr (debugRepr : String)
  | ok (body : String)
  deriving DecidableEq, Repr

/-- `send_code` from `src/app.rs` as a function of the transport outcome:
each of the two fallible awaits maps its error through `SendError::new`
(storing the underlying failure's `Debug` rendering); a received body is
returned as-is. -/
def send_code : TransportOutcome → Except SendError String
  | .sendErr d => .error ⟨d⟩
  | .textErr d => .error ⟨d⟩
  | .ok body => .ok body

/-- The classification match inside the `RunCode` future of `src/app.rs`:
a non-empty successful body becomes `Response`, a transport error becomes
`ResponseError` with that error, and the remaining case (a successful but
empty body) becomes `ResponseError` with the `"Status error"` sentinel. -/
def classifyResponse : Except SendError String → AppMsg
  | .ok ret => if ret.isEmpty then .ResponseError (SendError.new "Status error")
               else .Response ret
  | .error e => .ResponseError e

/-- The dynamic part of `App::view` in `src/app.rs`: the text rendered in
the Info banner (`None` when hidden) and in the Error banner. -/
def App.view (s : App) : Option String × Option String :=
  (if s.show_message then s.message else none,
   if s.show_error then s.error else none)

/-- The precondition of the two `unwrap` calls in `App::view`: whenever a
visibility flag is set, the corresponding stored text is present. -/
def viewSafe (s : App) : Prop :=
  (s.show_message = true → s.message.isSome = true) ∧
  (s.show_error = true → s.error.isSome = true)

/-- States reachable from `App::create` by processing any sequence of
messages through `App::update`. -/
inductive Reachable : App → Prop where
  | init : Reachable App.create
  | step : ∀ s m, Reachable s → Reachable (App.update s m).state

/-- Processing a list of messages in arrival order, threading the state. -/
def run (s : App) (ms : List AppMsg) : App :=
  ms.foldl (fun t m => (App.update t m).state) s

/-- C1: In every state, when the dismiss timer fires (delivering
`TurnOffShow`), both visibility flags become false and both stored
notification texts are cleared to `none`; moreover every event that makes
a banner visible (`Response` for Info, `ResponseError` for Error) arms
exactly one timer command sleeping 3 seconds and then delivering
`TurnOffShow`, regardless of which banner it was. -/
theorem turnOffShow_clears_both (s : App) (ret : String) (e : SendError) :
    (App.update s .TurnOffShow).state.show_message = false ∧
    (App.update s .TurnOffShow).state.show_error = false ∧
    (App.update s .TurnOffShow).state.message = none ∧
    (App.update s .TurnOffShow).state.error = none ∧
    (App.update s (.Response ret)).cmds = [.sleepThenSend 3 .TurnOffShow] ∧
    (App.update s (.ResponseError e)).cmds = [.sleepThenSend 3 .TurnOffShow] :=
  ⟨rfl, rfl, rfl, rfl, rfl, rfl⟩

/-- C3: `CodeChanged s` replaces the stored code with exactly `s`, for
every state and every string, with no validation or transformation: a
subsequent read returns exactly `s`. -/
theorem codeChanged_roundtrip (s : App) (c : String) :
    (App.update s (.CodeChanged c)).state.code = c :=
  rfl

/-- C7: The network-layer and timer events (`Response`, `ResponseError`,
`Fetching`, `TurnOffShow`) — and also `RunCode` — leave the stored code
unchanged in every state; only `CodeChanged` mutates it. -/
theorem code_untouched_by_network_and_timer (s : App) (ret : String) (e : SendError) :
    (App.update s (.Response ret)).state.code = s.code ∧
    (App.update s (.ResponseError e)).state.code = s.code ∧
    (App.update s .Fetching).state.code = s.code ∧
    (App.update s .TurnOffShow).state.code = s.code ∧
    (App.update s .RunCode).state.code = s.code :=
  ⟨rfl, rfl, rfl, rfl, rfl⟩

/-- C10: `Fetching` changes no field of the state, requests no re-render
and issues no command; `RunCode` likewise leaves the state unchanged and
requests no re-render (it only issues the network-request and `Fetching`
commands), so a submission is invisible in the component state until its
completion message arrives — consistent with `App` storing no busy flag. -/
theorem fetching_is_noop (s : App) :
    App.update s .Fetching = ⟨s, false, []⟩ ∧
    (App.update s .RunCode).state = s ∧
    (App.update s .RunCode).render = false ∧
    (App.update s .RunCode).cmds = [.request s.code, .send .Fetching] :=
  ⟨rfl, rfl, rfl, rfl⟩

/-- C4: From a state with both banners hidden, a successful completion
carrying a non-empty body `v` is classified as `Response v` and makes the
Info banner visible with text exactly `v`, while the Error banner stays
hidden. -/
theorem response_shows_info_only (s : App) (v : String)
    (hm : s.show_message = false) (he : s.show_error = false) (hv : v ≠ "") :
    (App.update s (classifyResponse (.ok v))).state.show_message = true ∧
    (App.update s (classifyResponse (.ok v))).state.message = some v ∧
    (App.update s (classifyResponse (.ok v))).state.show_error = false := by
  have hc : classifyResponse (.ok v) = .Response v := by
    simp [classifyResponse, String.isEmpty_iff, hv]
  rw [hc]
  exact ⟨rfl, rfl, he⟩

/-- Witness for C4 at the initial state with body `"5"`. -/
theorem response_shows_info_only_witness :
    (App.update App.create (classifyResponse (.ok "5"))).state.show_message = true ∧
    (App.update App.create (classifyResponse (.ok "5"))).state.message = some "5" ∧
    (App.update App.create (classifyResponse (.ok "5"))).state.show_error = false :=
  response_shows_info_only App.create "5" rfl rfl (by decide)

/-- C5: A transport failure (of either await in `send_code`) whose
underlying description `d` is non-empty makes the Error banner visible
with exactly that description, which is non-empty; and after any
completed submission — non-empty body, empty body, or transport failure —
at least one banner is visible, so both are never hidden. -/
theorem transport_failure_shows_error (s : App) (d : String) (hd : d ≠ "") :
    ((App.update s (classifyResponse (send_code (.sendErr d)))).state.show_error = true ∧
     (App.update s (classifyResponse (send_code (.sendErr d)))).state.error = some d ∧
     d ≠ "") ∧
    ((App.update s (classifyResponse (send_code (.textErr d)))).state.show_error = true ∧
     (App.update s (classifyResponse (send_code (.textErr d)))).state.error = some d) ∧
    (∀ o : TransportOutcome,
      (App.update s (classifyResponse (send_code o))).state.show_message = true ∨
      (App.update s (classifyResponse (send_code o))).state.show_error = true) := by
  refine ⟨⟨rfl, rfl, hd⟩, ⟨rfl, rfl⟩, ?_⟩
  intro o
  cases o with
  | sendErr d2 => exact Or.inr rfl
  | textErr d2 => exact Or.inr rfl
  | ok body =>
    by_cases hb : body.isEmpty = true
    · exact Or.inr (by simp [send_code, classifyResponse, hb, App.update])
    · exact Or.inl (by simp [send_code, classifyResponse, hb, App.update])

/-- Witness for C5 at the initial state with a concrete failure text. -/
theorem transport_failure_shows_error_witness :
    (App.update App.create (classifyResponse (send_code
        (.sendErr "JsError(NetworkError)")))).state.show_error = true ∧
    (App.update App.create (classifyResponse (send_code
        (.sendErr "JsError(NetworkError)")))).state.error = some "JsError(NetworkError)" :=
  ⟨(transport_failure_shows_error App.create "JsError(NetworkError)" (by decide)).1.1,
   (transport_failure_shows_error App.create "JsError(NetworkError)" (by decide)).1.2.1⟩

/-- C2 counterexample: after showing the Info banner with `"5"` and then
processing an empty-body success, the stored error text is not the bare
string `"Status error"` (it carries the quote characters added by the
`Debug` formatting in `SendError::new`), and the previously shown Info
banner has not been cleared by that completion. -/
theorem empty_body_sentinel_counterexample :
    (App.update ((App.update App.create (.Response "5")).state)
        (classifyResponse (.ok ""))).state.error ≠ some "Status error" ∧
    (App.update ((App.update App.create (.Response "5")).state)
        (classifyResponse (.ok ""))).state.show_message = true := by
  decide

/-- C2 amended: an empty-body success is classified as an error (never as
a success) with the fixed sentinel `SendError::new "Status error"`, whose
stored text is `"Status error"` wrapped in literal double-quote characters
by the `Debug` formatting; the Error banner becomes visible with exactly
that quoted text; an Info banner that was hidden stays hidden (a
previously visible one is left untouched by this event, to be cleared only
by the shared dismiss timer); a non-empty-body success is classified as a
success carrying the body text. -/
theorem empty_body_sentinel (s : App) (h : s.show_message = false) :
    classifyResponse (.ok "") = .ResponseError (SendError.new "Status error") ∧
    (SendError.new "Status error").err = "\"Status error\"" ∧
    (App.update s (classifyResponse (.ok ""))).state.show_error = true ∧
    (App.update s (classifyResponse (.ok ""))).state.error = some "\"Status error\"" ∧
    (App.update s (classifyResponse (.ok ""))).state.show_message = false ∧
    (∀ v : String, v ≠ "" → classifyResponse (.ok v) = .Response v) := by
  have hc : classifyResponse (.ok "") = .ResponseError (SendError.new "Status error") := by
    decide
  have herr : (SendError.new "Status error").err = "\"Status error\"" := by decide
  refine ⟨hc, herr, ?_, ?_, ?_, ?_⟩
  · rw [hc]; rfl
  · rw [hc]; show some (SendError.new "Status error").err = _; rw [herr]
  · rw [hc]; exact h
  · intro v hv
    simp [classifyResponse, String.isEmpty_iff, hv]

/-- Witness for C2 (amended) at the initial state, with the non-empty
case instantiated at `"5"`. -/
theorem empty_body_sentinel_witness :
    (App.update App.create (classifyResponse (.ok ""))).state.show_error = true ∧
    (App.update App.create (classifyResponse (.ok ""))).state.error
      = some "\"Status error\"" ∧
    classifyResponse (.ok "5") = .Response "5" :=
  ⟨(empty_body_sentinel App.create rfl).2.2.1,
   (empty_body_sentinel App.create rfl).2.2.2.1,
   (empty_body_sentinel App.create rfl).2.2.2.2.2 "5" (by decide)⟩

/-- C6 counterexample: processing `CodeChanged "x"` from the initial state
changes the state (the stored code becomes `"x"`, not the placeholder),
yet `update` returns `false`, requesting no re-render. -/
theorem codeChanged_no_render_counterexample :
    (App.update App.create (.CodeChanged "x")).state ≠ App.create ∧
    (App.update App.create (.CodeChanged "x")).render = false := by
  decide

/-- C6 amended: `update` requests a re-render exactly for the events
`Response`, `ResponseError` and `TurnOffShow`; in particular the
code-change event replaces the stored code but requests no re-render, so
the view is not recomputed after a code change. -/
theorem render_exactly_on_banner_events (s : App) (m : AppMsg) :
    ((App.update s m).render = true ↔
      (∃ v, m = .Response v) ∨ (∃ e, m = .ResponseError e) ∨ m = .TurnOffShow) ∧
    (∀ c : String,
      (App.update s (.CodeChanged c)).state.code = c ∧
      (App.update s (.CodeChanged c)).render = false) := by
  constructor
  · cases m <;> simp [App.update]
  · intro c
    exact ⟨rfl, rfl⟩

/-- C8: Two submissions are issued (each `RunCode` followed by its
`Fetching` echo) and their completions arrive out of order — the second
submission's completion `r2` first, the first submission's completion
`r1` last.  Every completion is processed as it arrives, and the
last-arriving one wins its slot: if `r1` classifies as a success
`Response v`, the final state shows the Info banner with exactly `v`; if
it classifies as `ResponseError e`, the final state shows the Error
banner with exactly `e`'s text. -/
theorem last_writer_wins (s : App) (r2 r1 : Except SendError String) :
    (∀ v, classifyResponse r1 = .Response v →
      (run s [.RunCode, .Fetching, .RunCode, .Fetching,
              classifyResponse r2, classifyResponse r1]).message = some v ∧
      (run s [.RunCode, .Fetching, .RunCode, .Fetching,
              classifyResponse r2, classifyResponse r1]).show_message = true) ∧
    (∀ e, classifyResponse r1 = .ResponseError e →
      (run s [.RunCode, .Fetching, .RunCode, .Fetching,
              classifyResponse r2, classifyResponse r1]).error = some e.err ∧
      (run s [.RunCode, .Fetching, .RunCode, .Fetching,
              classifyResponse r2, classifyResponse r1]).show_error = true) := by
  have hrw : run s [.RunCode, .Fetching, .RunCode, .Fetching,
                    classifyResponse r2, classifyResponse r1]
      = (App.update (run s [.RunCode, .Fetching, .RunCode, .Fetching,
                            classifyResponse r2]) (classifyResponse r1)).state := by
    simp [run, List.foldl]
  constructor
  · intro v hv
    rw [hrw, hv]
    exact ⟨rfl, rfl⟩
  · intro e he
    rw [hrw, he]
    exact ⟨rfl, rfl⟩

/-- Witness for C8: completions `"5"` then `"10"`; the final Info banner
shows the last-arriving `"10"`. -/
theorem last_writer_wins_witness :
    (run App.create [.RunCode, .Fetching, .RunCode, .Fetching,
        classifyResponse (.ok "5"), classifyResponse (.ok "10")]).message = some "10" ∧
    (run App.create [.RunCode, .Fetching, .RunCode, .Fetching,
        classifyResponse (.ok "5"), classifyResponse (.ok "10")]).show_message = true :=
  (last_writer_wins App.create (.ok "5") (.ok "10")).1 "10" (by decide)

/-- C9: In every state reachable from `App::create` by any sequence of
events, a set Info visibility flag implies the Info text is present and a
set Error visibility flag implies the Error text is present, so the
unconditional `unwrap` calls in `App::view` never panic. -/
theorem reachable_viewSafe (s : App) (h : Reachable s) : viewSafe s := by
  induction h with
  | init => exact ⟨fun _ => rfl, fun _ => rfl⟩
  | step t m ht ih =>
    cases m with
    | Response ret => exact ⟨fun _ => rfl, fun hh => ih.2 hh⟩
    | ResponseError e => exact ⟨fun hh => ih.1 hh, fun _ => rfl⟩
    | RunCode => exact ih
    | Fetching => exact ih
    | CodeChanged c => exact ⟨fun hh => ih.1 hh, fun hh => ih.2 hh⟩
    | TurnOffShow => exact ⟨fun hh => Bool.noConfusion hh, fun hh => Bool.noConfusion hh⟩

/-- Witness for C9 at a concrete reachable state (the initial state after
a `Response "5"` step). -/
theorem reachable_viewSafe_witness :
    viewSafe (App.update App.create (.Response "5")).state :=
  reachable_viewSafe (App.update App.create (.Response "5")).state
    (Reachable.step App.create (.Response "5") Reachable.init)
